import Mathlib

/-!
Verification of the DevBox session-lifecycle manager.

This file gives a shallow embedding of the session-lifecycle code of the
repository (src/persistence_utils.py, src/backup_utils.py, src/utils.py,
src/shared_runtime.py, src/devbox.py) and proves or refutes the frozen
claims about it.  Filesystem state is modelled as a finite association
list from paths (component lists) to nodes; Python exceptions are
modelled as an `Option PyErr` paired with the state at raise time.
-/

/-- Python exception kinds that the embedded code can raise. -/
inductive PyErr where
  | nameError (missing : String)
  | osError
  | permissionError
  | fileExists
  | valueError
  | attributeError
  | calledProcessError
deriving DecidableEq, Repr

/-- A filesystem node: a regular file, a directory, or a symbolic link
holding its target path. -/
inductive FsNode where
  | file
  | dir
  | symlink (target : List String)
deriving DecidableEq, Repr

/-- Paths are lists of components, e.g. /root/.ssh/config is
["root", ".ssh", "config"]. -/
abbrev FsPath := List String

/-- Filesystem state: association list from paths to nodes.  The first
binding of a path wins. -/
abbrev FS := List (FsPath × FsNode)

/-- Look up the node stored at a path. -/
def fsGet : FS → FsPath → Option FsNode
  | [], _ => none
  | (q, n) :: rest, p => if q = p then some n else fsGet rest p

/-- Drop every binding of a path (models os.remove / os.unlink, which
removes a file or a symbolic link without following it). -/
def fsErase : FS → FsPath → FS
  | [], _ => []
  | (q, n) :: rest, p => if q = p then fsErase rest p else (q, n) :: fsErase rest p

/-- Bind a path to a node, dropping any previous binding. -/
def fsSet (fs : FS) (p : FsPath) (n : FsNode) : FS :=
  (p, n) :: fsErase fs p

/-- Remove a path together with every descendant (models
shutil.rmtree / rm -rf: the path itself and everything below it). -/
def fsRemoveTree : FS → FsPath → FS
  | [], _ => []
  | (q, n) :: rest, p => if p <+: q then fsRemoveTree rest p else (q, n) :: fsRemoveTree rest p

/-- The nonempty prefixes of a path, shortest first: the chain of
directories that `os.makedirs` walks. -/
def pathInits (p : FsPath) : List FsPath :=
  (List.range p.length).map (fun k => p.take (k + 1))

/-- Walk a list of directory paths, creating each missing one (models
os.makedirs(..., exist_ok=True) / mkdir -p along the prefix chain of a
path: a missing component is created as a directory, an existing
directory or symlink component is accepted, a regular file component
makes the call raise an OSError). -/
def mkdirsAux : FS → List FsPath → Option PyErr × FS
  | fs, [] => (none, fs)
  | fs, q :: qs =>
    match fsGet fs q with
    | none => mkdirsAux (fsSet fs q FsNode.dir) qs
    | some FsNode.file => (some PyErr.osError, fs)
    | some _ => mkdirsAux fs qs

/-- Helper for splitting a relative item path on the / separator. -/
def splitSlashAux : List Char → List Char → List (List Char)
  | cur, [] => [cur.reverse]
  | cur, c :: rest =>
    if c = '/' then cur.reverse :: splitSlashAux [] rest
    else splitSlashAux (c :: cur) rest

/-- Split a relative item path such as ".ssh/config" into its
components, as os.path.join-built paths decompose. -/
def splitComps (s : String) : List String :=
  (splitSlashAux [] s.data).map (fun l => String.mk l)

/-- Home-side path of a persistence item: /root/<item>
(src/devbox.py line 253, src/persistence_utils.py line 27). -/
def homePath (item : String) : FsPath :=
  "root" :: splitComps item

/-- The durable-storage mirror directory /data/.config_persistence
(src/devbox.py line 192, src/persistence_utils.py line 11). -/
def storageDir : FsPath := ["data", ".config_persistence"]

/-- Mirror-side path of a persistence item under a storage root
(src/devbox.py line 254, src/persistence_utils.py line 26). -/
def volPath (storage : FsPath) (item : String) : FsPath :=
  storage ++ splitComps item

/-- Names imported at module level by src/persistence_utils.py
(lines 7-8: `import os`, `import shutil`; note that `sys` is absent). -/
def persistence_utils_imports : List String := ["os", "shutil"]

/-- Evaluating a global name in a module: a name that is not bound by
the module's imports raises a NameError. -/
def resolveName (imports : List String) (n : String) : Option PyErr :=
  if n ∈ imports then none else some (PyErr.nameError n)

/-- The name the stderr prints of src/persistence_utils.py evaluate
(`sys` in `print(..., file=sys.stderr)`, lines 20, 42, 44). -/
def sysName : String := "sys"

/-- The destructive replacement step the overlay routines run before
linking (src/devbox.py lines 265-269 and 413-418,
src/persistence_utils.py lines 34-38): if anything exists at the
home-side path, a real directory is removed recursively with
shutil.rmtree and anything else (file or symlink) with os.remove. -/
def removeExisting (fs : FS) (home : FsPath) : FS :=
  if (fsGet fs home).isSome then
    if fsGet fs home = some FsNode.dir then fsRemoveTree fs home
    else fsErase fs home
  else fs

/-- os.symlink(target, link) (src/devbox.py lines 272, 421,
src/persistence_utils.py line 41): raises FileExistsError if something
is already at the link path; `denied` is the set of link paths on which
the OS raises a PermissionError, modelling the environment. -/
def symlinkOp (denied : List FsPath) (fs : FS) (target link : FsPath) :
    Option PyErr × FS :=
  if link ∈ denied then (some PyErr.permissionError, fs)
  else if (fsGet fs link).isSome then (some PyErr.fileExists, fs)
  else (none, fsSet fs link (FsNode.symlink target))

/-- One iteration of the loop of persistence_utils.setup_persistence
(src/persistence_utils.py lines 24-42): ensure the mirror-side parent
directory exists, remove any existing file/dir/link at the home-side
path, create the symbolic link, then print a diagnostic line (whose
`sys.stderr` argument resolves the module-level name `sys`). -/
def setup_persistence_item (storage : FsPath) (fs : FS) (item : String) :
    Option PyErr × FS :=
  match mkdirsAux fs (pathInits (volPath storage item).dropLast) with
  | (some e, fs') => (some e, fs')
  | (none, fs1) =>
    match symlinkOp [] (removeExisting fs1 (homePath item))
        (volPath storage item) (homePath item) with
    | (some e, fs') => (some e, fs')
    | (none, fs2) =>
      match resolveName persistence_utils_imports sysName with
      | some e => (some e, fs2)
      | none => (none, fs2)

/-- The item loop of persistence_utils.setup_persistence: items are
processed in order and an exception aborts the remaining ones (there is
no try/except in the function body). -/
def setup_persistence_go (storage : FsPath) : FS → List String → Option PyErr × FS
  | fs, [] => (none, fs)
  | fs, item :: rest =>
    match setup_persistence_item storage fs item with
    | (some e, fs') => (some e, fs')
    | (none, fs') => setup_persistence_go storage fs' rest

/-- persistence_utils.setup_persistence (src/persistence_utils.py lines
11-44).  Its first statement, `print("Linking persistent configuration
files...", file=sys.stderr)` (line 20), evaluates the module-level name
`sys`, which the module never imports; only afterwards would it create
the storage directory and run the linking loop. -/
def setup_persistence (items : List String) (storage : FsPath) (fs : FS) :
    Option PyErr × FS :=
  match resolveName persistence_utils_imports sysName with
  | some e => (some e, fs)
  | none =>
    match mkdirsAux fs (pathInits storage) with
    | (some e, fs') => (some e, fs')
    | (none, fs1) =>
      match setup_persistence_go storage fs1 items with
      | (some e, fs') => (some e, fs')
      | (none, fs2) =>
        match resolveName persistence_utils_imports sysName with
        | some e => (some e, fs2)
        | none => (none, fs2)

/-- SSH_PERSISTENCE_ITEMS (src/persistence_utils.py lines 48-57). -/
def SSH_PERSISTENCE_ITEMS : List String :=
  [".bash_history", ".bashrc", ".profile", ".viminfo", ".vimrc",
   ".gitconfig", ".ssh/config", ".ssh/known_hosts"]

/-- The desktop-specific additions of RDP_PERSISTENCE_ITEMS
(src/persistence_utils.py lines 60-65). -/
def RDP_EXTRA_ITEMS : List String :=
  [".config/xfce4", ".local/share/xfce4", ".cache/sessions",
   "Desktop", ".xsession"]

/-- RDP_PERSISTENCE_ITEMS (src/persistence_utils.py lines 59-66). -/
def RDP_PERSISTENCE_ITEMS : List String :=
  SSH_PERSISTENCE_ITEMS ++ RDP_EXTRA_ITEMS

/-- GEMINI_PERSISTENCE_ITEMS (src/persistence_utils.py lines 68-71). -/
def GEMINI_PERSISTENCE_ITEMS : List String :=
  SSH_PERSISTENCE_ITEMS ++ [".config/gemini"]

/-- LLM_PERSISTENCE_ITEMS (src/persistence_utils.py lines 73-77). -/
def LLM_PERSISTENCE_ITEMS : List String :=
  SSH_PERSISTENCE_ITEMS ++ [".config/llm", ".models"]

/-- UNSLOTH_PERSISTENCE_ITEMS (src/persistence_utils.py lines 79-83). -/
def UNSLOTH_PERSISTENCE_ITEMS : List String :=
  SSH_PERSISTENCE_ITEMS ++ [".config/unsloth", ".models/unsloth"]

/-- persistence_utils.get_persistence_items (src/persistence_utils.py
lines 86-104): a dictionary lookup over the five known devbox types,
with `dict.get`'s default falling back to SSH_PERSISTENCE_ITEMS. -/
def get_persistence_items (devbox_type : String) : List String :=
  if devbox_type = "ssh" then SSH_PERSISTENCE_ITEMS
  else if devbox_type = "rdp" then RDP_PERSISTENCE_ITEMS
  else if devbox_type = "gemini" then GEMINI_PERSISTENCE_ITEMS
  else if devbox_type = "llm" then LLM_PERSISTENCE_ITEMS
  else if devbox_type = "unsloth" then UNSLOTH_PERSISTENCE_ITEMS
  else SSH_PERSISTENCE_ITEMS

/-- The persistence profile name requested by launchers.launch_rdp_desktop
(src/launchers.py line 167): "rdp_<gpu>" when a GPU type is given,
"rdp" otherwise. -/
def rdp_persistence_type : Option String → String
  | some g => "rdp_" ++ g
  | none => "rdp"

/-- One iteration of the inline overlay loop of devbox.run_devbox_shared /
devbox.run_rdp_devbox_shared (src/devbox.py lines 252-273 and 403-422):
ensure the home-side parent directory exists, ensure the mirror-side
parent directory exists, remove any real file or directory (or link) at
the home-side path, and create the symbolic link.  `denied` is the set
of paths on which os.symlink raises a PermissionError, modelling the
environment; the loop body contains no exception handler, so an error
is returned with the state reached so far. -/
def overlayItem (storage : FsPath) (denied : List FsPath) (fs : FS)
    (item : String) : Option PyErr × FS :=
  match mkdirsAux fs (pathInits (homePath item).dropLast) with
  | (some e, fs') => (some e, fs')
  | (none, fs1) =>
    match mkdirsAux fs1 (pathInits (volPath storage item).dropLast) with
    | (some e, fs') => (some e, fs')
    | (none, fs2) =>
      symlinkOp denied (removeExisting fs2 (homePath item))
        (volPath storage item) (homePath item)

/-- The inline overlay loop over a list of items (src/devbox.py lines
252-273 and 403-422): items in order, no per-item exception handling,
so the first failure aborts the remaining items. -/
def overlayLoop (storage : FsPath) (denied : List FsPath) :
    FS → List String → Option PyErr × FS
  | fs, [] => (none, fs)
  | fs, item :: rest =>
    match overlayItem storage denied fs item with
    | (some e, fs') => (some e, fs')
    | (none, fs') => overlayLoop storage denied fs' rest

/-- The items_to_persist list of the RDP startups (src/devbox.py lines
385-401, src/shared_runtime.py lines 84-89). -/
def rdp_items_to_persist : List String :=
  [".bash_history", ".bashrc", ".profile", ".viminfo", ".vimrc",
   ".gitconfig", ".ssh/config", ".ssh/known_hosts",
   ".config/xfce4", ".local/share/xfce4", ".cache/sessions",
   "Desktop", ".xsession"]

/-- Create the missing directories along the prefix chain of a path,
ignoring existing entries (models the success path of `mkdir -p`). -/
def mkdirP (fs : FS) (p : FsPath) : FS :=
  (pathInits p).foldl
    (fun fs q => if fsGet fs q = none then fsSet fs q FsNode.dir else fs) fs

/-- The XFCE configuration reset that the RDP startups run after overlay
setup and before starting the RDP service (src/devbox.py lines 468-471,
src/shared_runtime.py lines 107-110): `rm -rf /root/.config/xfce4`,
`rm -rf /root/.cache/sessions`, then `mkdir -p` both paths again. -/
def xfce_cleanup (fs : FS) : FS :=
  let fs := fsRemoveTree fs (homePath (".config/xfce4"))
  let fs := fsRemoveTree fs (homePath (".cache/sessions"))
  let fs := mkdirP fs (homePath (".config/xfce4"))
  mkdirP fs (homePath (".cache/sessions"))

/-- A minimal container filesystem before startup: the home directory
and the mounted durable-storage volume. -/
def initFs : FS := [(["root"], FsNode.dir), (["data"], FsNode.dir)]

/-- The filesystem after the RDP startup's overlay loop runs on the
fresh container filesystem. -/
def rdpFsAfterOverlay : FS :=
  (overlayLoop storageDir [] initFs rdp_items_to_persist).2

/-- Environment facts that backup_utils.restore_backup depends on:
whether the archive file exists at its well-known path, whether the tar
extraction fails, and the entries the archive would extract on success. -/
structure RestoreEnv where
  archiveExists : Bool
  tarFails : Bool
  archiveEntries : List (FsPath × FsNode)
deriving DecidableEq, Repr

/-- The cleaning step of restore_backup (src/backup_utils.py lines
90-94): `find /root -mindepth 1 -maxdepth 1 ! -name lost+found -exec
rm -rf {} +` removes every entry strictly below /root except the
lost+found subtree; it runs with check=False so it never raises. -/
def cleanRoot : FS → FS
  | [] => []
  | (q, n) :: rest =>
    if ["root"] <+: q ∧ q ≠ ["root"] ∧ ¬ (["root", "lost+found"] <+: q) then
      cleanRoot rest
    else (q, n) :: cleanRoot rest

/-- Extracting the archive over the filesystem root (src/backup_utils.py
line 97): each archived entry overwrites the current one. -/
def extractArchive (fs : FS) (entries : List (FsPath × FsNode)) : FS :=
  entries.foldl (fun fs e => fsSet fs e.1 e.2) fs

/-- The try-block of restore_backup (src/backup_utils.py lines 89-98):
clean /root (check=False, cannot raise), then run tar with check=True,
which raises CalledProcessError when extraction fails.  The state at
raise time is the cleaned filesystem. -/
def restore_backup_try (env : RestoreEnv) (fs : FS) :
    (Option PyErr × FS) × List String :=
  let fs1 := cleanRoot fs
  if env.tarFails then ((some PyErr.calledProcessError, fs1), [])
  else ((none, extractArchive fs1 env.archiveEntries),
        ["Session data restored successfully!"])

/-- The diagnostic line restore_backup logs when extraction fails
(src/backup_utils.py line 101). -/
def restoreFailWarning : String :=
  "Warning: Restore failed - continuing with clean environment"

/-- backup_utils.restore_backup (src/backup_utils.py lines 75-101): if
the archive file exists, clean /root and extract inside a `try` whose
`except Exception` logs a warning; the function never lets an
exception escape.  Returns the exception slot of the caller (always
none), the final filesystem, and the log lines. -/
def restore_backup (env : RestoreEnv) (fs : FS) :
    (Option PyErr × FS) × List String :=
  if env.archiveExists then
    let r := restore_backup_try env fs
    match r.1.1 with
    | some _ =>
      ((none, r.1.2),
       "Restoring previous session data..." :: r.2 ++ [restoreFailWarning])
    | none => ((none, r.1.2), "Restoring previous session data..." :: r.2)
  else ((none, fs), [])

/-- Whitespace in the sense of Python str.strip. -/
def isPySpace (c : Char) : Bool :=
  c = ' ' ∨ c = '\t' ∨ c = '\n' ∨ c = '\r' ∨ c = '\x0b' ∨ c = '\x0c'

/-- Python str.strip on a character list: drop leading and trailing
whitespace. -/
def pyStrip (s : List Char) : List Char :=
  (((s.dropWhile isPySpace).reverse.dropWhile isPySpace)).reverse

/-- The credential state that utils.inject_ssh_key reads and writes:
the /root/.ssh directory (presence and permission bits) and the
authorized_keys file (raw content, or none when absent, and permission
bits). -/
structure CredWorld where
  sshDirExists : Bool
  sshDirMode : Option Nat
  authKeys : Option (List Char)
  authKeysMode : Option Nat
deriving DecidableEq, Repr

/-- utils.inject_ssh_key (src/utils.py lines 46-174), state-relevant
steps: read PUBKEY from the environment and strip it (line 83); return
False if empty (lines 85-91) without touching any file; otherwise
create /root/.ssh with mode 700 if missing (line 96) and chmod it to
700 if its mode differs (lines 104-106); read and strip the existing
authorized_keys content, an absent file counting as empty (lines
109-124); append the key plus a newline only when it is not a substring
of the existing content (lines 127-130); chmod the file to 600
(line 133); return True.  The diagnostic prints do not change state. -/
def inject_ssh_key (env : List Char) (w : CredWorld) : Bool × CredWorld :=
  let pubkey := pyStrip env
  if pubkey = [] then (false, w)
  else
    let w1 :=
      if w.sshDirExists then w
      else { w with sshDirExists := true, sshDirMode := some 0o700 }
    let w2 :=
      if w1.sshDirMode = some 0o700 then w1
      else { w1 with sshDirMode := some 0o700 }
    let existing :=
      match w2.authKeys with
      | some c => pyStrip c
      | none => []
    let w3 :=
      if pubkey <:+: existing then w2
      else { w2 with authKeys := some ((w2.authKeys.getD []) ++ pubkey ++ ['\n']) }
    let w4 := { w3 with authKeysMode := some 0o600 }
    (true, w4)

/-- Number of (possibly overlapping) occurrences of a nonempty pattern
as a contiguous substring. -/
def countOcc (p : List Char) : List Char → Nat
  | [] => 0
  | c :: rest => (if p <+: c :: rest then 1 else 0) + countOcc p rest

/-- config.IDLE_TIMEOUT_SECONDS (src/config.py line 12). -/
def IDLE_TIMEOUT_SECONDS : Nat := 300

/-- One tick of the SSH idle monitor (src/devbox.py lines 346-349,
src/shared_runtime.py lines 56-59): a detected session resets the idle
counter to zero, otherwise the counter advances by the check interval. -/
def idleStep (interval : Nat) (detected : Bool) (idle : Nat) : Nat :=
  if detected then 0 else idle + interval

/-- The SSH idle monitor loop (src/devbox.py lines 337-355,
src/shared_runtime.py lines 51-59): while idle < timeout, sleep, probe
the process table, and update the counter.  The loop runs over a finite
trace of probe outcomes (true = session detected); the result is the
number of ticks executed before the loop condition failed, or none if
the trace ended with the loop still running. -/
def sshIdleLoop (timeout interval : Nat) : Nat → List Bool → Option Nat
  | idle, [] => if timeout ≤ idle then some 0 else none
  | idle, d :: rest =>
    if timeout ≤ idle then some 0
    else (sshIdleLoop timeout interval (idleStep interval d idle) rest).map (· + 1)

/-- Decimal-digit parse used to model CPython int() on a stripped
string: an optional sign followed by a nonempty run of digits; anything
else raises ValueError. -/
def digitsVal (s : List Char) : Option Nat :=
  if s = [] then none
  else if s.all Char.isDigit then
    some (s.foldl (fun a c => a * 10 + (c.toNat - 48)) 0)
  else none

/-- Value of an integer literal: an optional sign followed by decimal
digits; none when the text is not an integer literal. -/
def pyIntCore (s : List Char) : Option Int :=
  match s with
  | '-' :: rest => (digitsVal rest).map (fun n => -(n : Int))
  | '+' :: rest => (digitsVal rest).map (fun n => (n : Int))
  | _ => (digitsVal s).map (fun n => (n : Int))

/-- CPython int() applied to a string (as in `int(result.stdout.strip())`,
src/devbox.py line 521): parses an optional sign and decimal digits,
raising ValueError on anything else (in particular on the empty string). -/
def pyIntParse (s : List Char) : Except PyErr Int :=
  match pyIntCore s with
  | some v => Except.ok v
  | none => Except.error PyErr.valueError

/-- The try-block of one RDP idle-monitor tick (src/devbox.py lines
520-531, src/shared_runtime.py lines 146-154): parse the probe's stdout
as an integer session count; a positive count resets the idle counter,
otherwise it advances by the check interval. -/
def rdpTickTry (idle interval : Nat) (stdout : List Char) : Except PyErr Nat :=
  match pyIntParse (pyStrip stdout) with
  | Except.error e => Except.error e
  | Except.ok k => Except.ok (if 0 < k then 0 else idle + interval)

/-- One RDP idle-monitor tick with its exception handler (src/devbox.py
lines 532-540, src/shared_runtime.py lines 155-156): `except
(ValueError, AttributeError)` treats the tick as idle and advances the
counter; any other exception would propagate. -/
def rdpTick (idle interval : Nat) (stdout : List Char) : Except PyErr Nat :=
  match rdpTickTry idle interval stdout with
  | Except.ok v => Except.ok v
  | Except.error PyErr.valueError => Except.ok (idle + interval)
  | Except.error PyErr.attributeError => Except.ok (idle + interval)
  | Except.error e => Except.error e

/-- The RDP idle monitor loop (src/devbox.py lines 508-540,
src/shared_runtime.py lines 137-156) over a finite trace of probe
stdout values: the result is ok (some n) when the loop exited after n
ticks, ok none when the trace ended with the loop still running, and
error e if a tick raised an uncaught exception. -/
def rdpIdleLoop (timeout interval : Nat) :
    Nat → List (List Char) → Except PyErr (Option Nat)
  | idle, [] => if timeout ≤ idle then Except.ok (some 0) else Except.ok none
  | idle, s :: rest =>
    if timeout ≤ idle then Except.ok (some 0)
    else
      match rdpTick idle interval s with
      | Except.error e => Except.error e
      | Except.ok idle' =>
        (rdpIdleLoop timeout interval idle' rest).map (Option.map (· + 1))

/-- The startup steps a container flavor can run. -/
inductive StartupStep where
  | restoreBackup
  | overlaySetup
  | credentialBootstrap
  | registerBackup
  | installPackages
  | setupDesktopEnv
  | startService
  | idleLoop
deriving DecidableEq, Repr

/-- Statement order of shared_runtime.run_devbox_shared
(src/shared_runtime.py lines 22-59): restore_backup,
setup_persistence, register_custom_backup, inject_ssh_key, apt-get
install, sshd, idle loop. -/
def sharedRuntime_run_devbox_shared_steps : List StartupStep :=
  [StartupStep.restoreBackup, StartupStep.overlaySetup,
   StartupStep.registerBackup, StartupStep.credentialBootstrap,
   StartupStep.installPackages, StartupStep.startService,
   StartupStep.idleLoop]

/-- Statement order of shared_runtime.run_rdp_devbox_shared
(src/shared_runtime.py lines 62-158): restore_backup, inject_ssh_key,
setup_persistence, register_custom_backup, apt-get install, XFCE/D-Bus
environment setup, xrdp, idle loop. -/
def sharedRuntime_run_rdp_devbox_shared_steps : List StartupStep :=
  [StartupStep.restoreBackup, StartupStep.credentialBootstrap,
   StartupStep.overlaySetup, StartupStep.registerBackup,
   StartupStep.installPackages, StartupStep.setupDesktopEnv,
   StartupStep.startService, StartupStep.idleLoop]

/-- Statement order of devbox.run_devbox_shared (src/devbox.py lines
155-360): inline restore, inline overlay loop, inject_ssh_key,
atexit-registered backup, apt-get install, sshd, idle loop. -/
def devbox_run_devbox_shared_steps : List StartupStep :=
  [StartupStep.restoreBackup, StartupStep.overlaySetup,
   StartupStep.credentialBootstrap, StartupStep.registerBackup,
   StartupStep.installPackages, StartupStep.startService,
   StartupStep.idleLoop]

/-- Statement order of devbox.run_rdp_devbox_shared (src/devbox.py lines
363-545): inject_ssh_key first, inline overlay loop, atexit-registered
backup, apt-get install, XFCE/D-Bus environment setup, xrdp, idle loop;
this variant has no restore step at all. -/
def devbox_run_rdp_devbox_shared_steps : List StartupStep :=
  [StartupStep.credentialBootstrap, StartupStep.overlaySetup,
   StartupStep.registerBackup, StartupStep.installPackages,
   StartupStep.setupDesktopEnv, StartupStep.startService,
   StartupStep.idleLoop]

/-- Position of a step in a startup sequence. -/
def stepIndex (steps : List StartupStep) (s : StartupStep) : Nat :=
  steps.indexOf s

theorem fsGet_fsErase_ne (fs : FS) (p q : FsPath) (h : q ≠ p) :
    fsGet (fsErase fs p) q = fsGet fs q := by
  induction fs with
  | nil => rfl
  | cons e rest ih =>
    obtain ⟨r, n⟩ := e
    by_cases hr : r = p
    · have hq : ¬ (r = q) := fun hh => h (hh.symm.trans hr)
      simp only [fsErase, if_pos hr, fsGet, if_neg hq, ih]
    · simp only [fsErase, if_neg hr, fsGet, ih]

theorem fsGet_fsSet_self (fs : FS) (p : FsPath) (n : FsNode) :
    fsGet (fsSet fs p n) p = some n := by
  simp [fsSet, fsGet]

theorem fsGet_fsSet_ne (fs : FS) (p q : FsPath) (n : FsNode) (h : q ≠ p) :
    fsGet (fsSet fs p n) q = fsGet fs q := by
  simp only [fsSet, fsGet, if_neg (fun hh : p = q => h hh.symm)]
  exact fsGet_fsErase_ne fs p q h

theorem fsGet_fsRemoveTree_not_below (fs : FS) (p q : FsPath)
    (h : ¬ p <+: q) :
    fsGet (fsRemoveTree fs p) q = fsGet fs q := by
  induction fs with
  | nil => rfl
  | cons e rest ih =>
    obtain ⟨r, n⟩ := e
    by_cases hr : p <+: r
    · have hq : ¬ (r = q) := fun hh => h (hh ▸ hr)
      simp only [fsRemoveTree, if_pos hr, fsGet, if_neg hq, ih]
    · simp only [fsRemoveTree, if_neg hr, fsGet, ih]

theorem mkdirsAux_preserves (qs : List FsPath) :
    ∀ (fs fs' : FS), mkdirsAux fs qs = (none, fs') →
    ∀ (p : FsPath) (n : FsNode), fsGet fs p = some n → fsGet fs' p = some n := by
  induction qs with
  | nil =>
    intro fs fs' hok p n hg
    simp only [mkdirsAux] at hok
    cases hok
    exact hg
  | cons q qs ih =>
    intro fs fs' hok p n hg
    simp only [mkdirsAux] at hok
    cases hq : fsGet fs q with
    | none =>
      rw [hq] at hok
      have hne : p ≠ q := fun hh => by rw [hh, hq] at hg; cases hg
      refine ih _ _ hok p n ?_
      rw [fsGet_fsSet_ne fs q p FsNode.dir hne]
      exact hg
    | some m =>
      rw [hq] at hok
      cases m with
      | file => cases hok
      | dir => exact ih _ _ hok p n hg
      | symlink t => exact ih _ _ hok p n hg

theorem removeExisting_preserves (fs : FS) (home p : FsPath) (n : FsNode)
    (hg : fsGet fs p = some n) (hnb : ¬ home <+: p) :
    fsGet (removeExisting fs home) p = some n := by
  have hne : p ≠ home := fun hh => hnb (hh ▸ List.prefix_refl p)
  unfold removeExisting
  split
  · split
    · rw [fsGet_fsRemoveTree_not_below fs home p hnb]; exact hg
    · rw [fsGet_fsErase_ne fs home p hne]; exact hg
  · exact hg

theorem symlinkOp_ok (denied : List FsPath) (fs fs' : FS)
    (target link : FsPath)
    (hok : symlinkOp denied fs target link = (none, fs')) :
    fs' = fsSet fs link (FsNode.symlink target) := by
  unfold symlinkOp at hok
  split at hok
  · exact absurd hok (by simp)
  · split at hok
    · exact absurd hok (by simp)
    · exact (Prod.mk.injEq _ _ _ _ ▸ hok).2.symm ▸ rfl

theorem overlayItem_sets_link (storage : FsPath) (denied : List FsPath)
    (fs fs' : FS) (j : String)
    (hok : overlayItem storage denied fs j = (none, fs')) :
    fsGet fs' (homePath j) = some (FsNode.symlink (volPath storage j)) := by
  unfold overlayItem at hok
  split at hok
  · exact absurd hok (by simp)
  · split at hok
    · exact absurd hok (by simp)
    · rw [symlinkOp_ok _ _ _ _ _ hok]
      exact fsGet_fsSet_self _ _ _

theorem overlayItem_preserves_symlink (storage : FsPath) (denied : List FsPath)
    (fs fs' : FS) (j : String) (p t : FsPath)
    (hok : overlayItem storage denied fs j = (none, fs'))
    (hg : fsGet fs p = some (FsNode.symlink t))
    (hnb : ¬ homePath j <+: p) :
    fsGet fs' p = some (FsNode.symlink t) := by
  have hne : p ≠ homePath j := fun hh => hnb (hh ▸ List.prefix_refl p)
  unfold overlayItem at hok
  split at hok
  · exact absurd hok (by simp)
  · next fs1 heq1 =>
    split at hok
    · exact absurd hok (by simp)
    · next fs2 heq2 =>
      have hg1 : fsGet fs1 p = some (FsNode.symlink t) :=
        mkdirsAux_preserves _ fs fs1 heq1 p _ hg
      have hg2 : fsGet fs2 p = some (FsNode.symlink t) :=
        mkdirsAux_preserves _ fs1 fs2 heq2 p _ hg1
      have hg3 := removeExisting_preserves fs2 (homePath j) p _ hg2 hnb
      rw [symlinkOp_ok _ _ _ _ _ hok]
      rw [fsGet_fsSet_ne _ _ _ _ hne]
      exact hg3

theorem overlayLoop_preserves_symlink (storage : FsPath)
    (denied : List FsPath) (p t : FsPath) :
    ∀ (rest : List String) (fs fs' : FS),
    overlayLoop storage denied fs rest = (none, fs') →
    fsGet fs p = some (FsNode.symlink t) →
    (∀ k ∈ rest, ¬ homePath k <+: p) →
    fsGet fs' p = some (FsNode.symlink t) := by
  intro rest
  induction rest with
  | nil =>
    intro fs fs' hok hg _
    simp only [overlayLoop] at hok
    cases hok
    exact hg
  | cons k ks ih =>
    intro fs fs' hok hg hnb
    simp only [overlayLoop] at hok
    cases hk : overlayItem storage denied fs k with
    | mk o fs1 =>
      rw [hk] at hok
      cases o with
      | some e => exact absurd hok (by simp)
      | none =>
        have hg1 := overlayItem_preserves_symlink storage denied fs fs1 k p t
          hk hg (hnb k (List.mem_cons_self k ks))
        exact ih fs1 fs' hok hg1 (fun j hj => hnb j (List.mem_cons_of_mem k hj))

theorem overlayLoop_links (storage : FsPath) (denied : List FsPath) :
    ∀ (items : List String) (fs fs' : FS),
    items.Nodup →
    (∀ i ∈ items, ∀ j ∈ items, i ≠ j → ¬ homePath j <+: homePath i) →
    overlayLoop storage denied fs items = (none, fs') →
    ∀ i ∈ items,
      fsGet fs' (homePath i) = some (FsNode.symlink (volPath storage i)) := by
  intro items
  induction items with
  | nil => intro fs fs' _ _ _ i hi; cases hi
  | cons k ks ih =>
    intro fs fs' hnd hpre hok i hi
    simp only [overlayLoop] at hok
    cases hk : overlayItem storage denied fs k with
    | mk o fs1 =>
      rw [hk] at hok
      cases o with
      | some e => exact absurd hok (by simp)
      | none =>
        rcases List.mem_cons.mp hi with hik | hik
        · subst hik
          have hglink := overlayItem_sets_link storage denied fs fs1 i hk
          refine overlayLoop_preserves_symlink storage denied
            (homePath i) (volPath storage i) ks fs1 fs' hok hglink ?_
          intro j hj
          have hji : j ≠ i := by
            intro hh
            subst hh
            exact (List.nodup_cons.mp hnd).1 hj
          exact hpre i (List.mem_cons_self i ks) j (List.mem_cons_of_mem i hj)
            (fun hh => hji hh.symm)
        · refine ih fs1 fs' (List.nodup_cons.mp hnd).2 ?_ hok i hik
          intro a ha b hb hab
          exact hpre a (List.mem_cons_of_mem k ha) b (List.mem_cons_of_mem k hb) hab

/-- Claim C1 fails as stated: the overlay invariant does not hold at
every later point of the startup sequence.  Concretely, in the RDP
startup the overlay loop over rdp_items_to_persist succeeds (first
conjunct) and makes /root/.config/xfce4 a symlink, but the subsequent
XFCE reset step (src/devbox.py lines 468-471, src/shared_runtime.py
lines 107-110) leaves a plain directory at /root/.config/xfce4, not a
symbolic link to its mirror path. -/
theorem claim_C1_counterexample :
    (overlayLoop storageDir [] initFs rdp_items_to_persist).1 = none ∧
    ".config/xfce4" ∈ rdp_items_to_persist ∧
    fsGet (xfce_cleanup rdpFsAfterOverlay) (homePath (".config/xfce4")) =
      some FsNode.dir ∧
    fsGet (xfce_cleanup rdpFsAfterOverlay) (homePath (".config/xfce4")) ≠
      some (FsNode.symlink (volPath storageDir (".config/xfce4"))) := by
  refine ⟨by decide, by decide, by decide, by decide⟩

/-- Claim C1 (amended): when the overlay loop completes successfully on
a profile whose items do not shadow one another, every item's home-side
path /root/<item> is a symbolic link to the matching mirror-side path;
but the invariant does not persist to every later point of the startup
sequence: the RDP startup's XFCE reset replaces /root/.config/xfce4 and
/root/.cache/sessions with plain directories, while all the other
profile items remain symbolic links. -/
theorem claim_C1_overlay_links (storage : FsPath) (denied : List FsPath)
    (items : List String) (fs fs' : FS)
    (hnd : items.Nodup)
    (hpre : ∀ i ∈ items, ∀ j ∈ items, i ≠ j → ¬ homePath j <+: homePath i)
    (hok : overlayLoop storage denied fs items = (none, fs')) :
    (∀ i ∈ items,
      fsGet fs' (homePath i) = some (FsNode.symlink (volPath storage i))) ∧
    fsGet (xfce_cleanup rdpFsAfterOverlay) (homePath (".config/xfce4")) =
      some FsNode.dir ∧
    fsGet (xfce_cleanup rdpFsAfterOverlay) (homePath (".cache/sessions")) =
      some FsNode.dir ∧
    (∀ i ∈ rdp_items_to_persist, i ≠ ".config/xfce4" → i ≠ ".cache/sessions" →
      fsGet (xfce_cleanup rdpFsAfterOverlay) (homePath i) =
        some (FsNode.symlink (volPath storageDir i))) := by
  exact ⟨overlayLoop_links storage denied items fs fs' hnd hpre hok,
    by decide, by decide, by decide⟩

/-- Claim C1 witness: the amended overlay postcondition instantiated on
the RDP profile run from the fresh container filesystem. -/
theorem claim_C1_witness :
    rdp_items_to_persist.Nodup ∧
    (∀ i ∈ rdp_items_to_persist,
      fsGet rdpFsAfterOverlay (homePath i) =
        some (FsNode.symlink (volPath storageDir i))) := by
  have hok : overlayLoop storageDir [] initFs rdp_items_to_persist =
      (none, rdpFsAfterOverlay) := by decide
  exact ⟨by decide,
    (claim_C1_overlay_links storageDir [] rdp_items_to_persist initFs
      rdpFsAfterOverlay (by decide) (by decide) hok).1⟩

/-- Claim C2 fails as stated: a permission error while linking the
first item makes the whole overlay loop return that error, and the
remaining item .vimrc is never linked — the routine does not continue
with the remaining items. -/
theorem claim_C2_counterexample :
    (overlayLoop storageDir [homePath (".bashrc")] initFs
      [".bashrc", ".vimrc"]).1 = some PyErr.permissionError ∧
    fsGet (overlayLoop storageDir [homePath (".bashrc")] initFs
      [".bashrc", ".vimrc"]).2 (homePath (".vimrc")) = none := by
  refine ⟨by decide, by decide⟩

/-- Claim C2 (amended): the overlay loop has no per-item exception
handling, so a failure while processing one item propagates out
immediately with the state reached so far, and none of the remaining
items are processed. -/
theorem claim_C2_failure_aborts (storage : FsPath) (denied : List FsPath)
    (fs fs' : FS) (a : String) (rest : List String) (e : PyErr)
    (hfail : overlayItem storage denied fs a = (some e, fs')) :
    overlayLoop storage denied fs (a :: rest) = (some e, fs') := by
  simp only [overlayLoop, hfail]

/-- Claim C2 witness: the abort behavior instantiated on a two-item
profile whose first item hits a permission error. -/
theorem claim_C2_witness :
    overlayLoop storageDir [homePath (".bashrc")] initFs
      [".bashrc", ".vimrc"] =
    (some PyErr.permissionError,
     (overlayItem storageDir [homePath (".bashrc")] initFs (".bashrc")).2) := by
  exact claim_C2_failure_aborts storageDir [homePath (".bashrc")] initFs
    (overlayItem storageDir [homePath (".bashrc")] initFs (".bashrc")).2
    (".bashrc") ([".vimrc"]) PyErr.permissionError (by decide)

/-- Claim C3: persistence_utils.setup_persistence always raises a
NameError for the unbound module name `sys` on its very first
statement, for every items list and every filesystem state, leaving the
filesystem unchanged — no symbolic link is ever created. -/
theorem claim_C3_name_error :
    ∀ (items : List String) (storage : FsPath) (fs : FS),
    setup_persistence items storage fs = (some (PyErr.nameError sysName), fs) :=
  fun _ _ _ => rfl

/-- Every path strictly below /root other than the lost+found subtree is
absent after the cleaning step of restore_backup. -/
theorem cleanRoot_clears (q : FsPath)
    (h1 : ["root"] <+: q) (h2 : q ≠ ["root"])
    (h3 : ¬ ["root", "lost+found"] <+: q) :
    ∀ fs : FS, fsGet (cleanRoot fs) q = none := by
  intro fs
  induction fs with
  | nil => rfl
  | cons e rest ih =>
    obtain ⟨r, n⟩ := e
    by_cases hc : ["root"] <+: r ∧ r ≠ ["root"] ∧ ¬ (["root", "lost+found"] <+: r)
    · simp only [cleanRoot, if_pos hc]
      exact ih
    · have hne : ¬ (r = q) := fun hh => hc (hh ▸ ⟨h1, h2, h3⟩)
      simp only [cleanRoot, if_neg hc, fsGet, if_neg hne]
      exact ih

/-- Claim C4 (amended): when the archive exists and extraction fails,
restore_backup logs the warning and returns normally (no exception in
the caller's slot), but startup proceeds with the target directory
already cleared — every entry strictly below /root except lost+found
was removed before the failing extraction — not with the default
content the container image provides. -/
theorem claim_C4_restore_failure (env : RestoreEnv) (fs : FS)
    (hA : env.archiveExists = true) (hT : env.tarFails = true) :
    restore_backup env fs =
      ((none, cleanRoot fs),
       ["Restoring previous session data...", restoreFailWarning]) ∧
    (∀ q : FsPath, ["root"] <+: q → q ≠ ["root"] →
      ¬ ["root", "lost+found"] <+: q →
      fsGet (restore_backup env fs).1.2 q = none) := by
  have h : restore_backup env fs =
      ((none, cleanRoot fs),
       ["Restoring previous session data...", restoreFailWarning]) := by
    simp [restore_backup, restore_backup_try, hA, hT]
  refine ⟨h, ?_⟩
  intro q h1 h2 h3
  rw [h]
  exact cleanRoot_clears q h1 h2 h3 fs

/-- Claim C4 witness: the amended restore-failure behavior instantiated
on a concrete three-entry filesystem with an existing archive whose
extraction fails. -/
theorem claim_C4_witness :
    restore_backup ⟨true, true, []⟩
      [(["root"], FsNode.dir), (["root", ".bashrc"], FsNode.file),
       (["root", "lost+found"], FsNode.dir)] =
      ((none, [(["root"], FsNode.dir), (["root", "lost+found"], FsNode.dir)]),
       ["Restoring previous session data...", restoreFailWarning]) := by
  have h := claim_C4_restore_failure ⟨true, true, []⟩
    [(["root"], FsNode.dir), (["root", ".bashrc"], FsNode.file),
     (["root", "lost+found"], FsNode.dir)] rfl rfl
  rw [h.1]
  refine congrArg _ ?_
  decide

/-- Claim C4 fails as stated in its last clause: with an existing
archive whose extraction fails, the warning is logged and no exception
propagates, but the image-provided default file /root/.bashrc is gone
afterwards — startup does not proceed with the default content the
container image provides in the target directory. -/
theorem claim_C4_counterexample :
    (restore_backup ⟨true, true, []⟩
      [(["root"], FsNode.dir), (["root", ".bashrc"], FsNode.file),
       (["root", "lost+found"], FsNode.dir)]).1.1 = none ∧
    restoreFailWarning ∈ (restore_backup ⟨true, true, []⟩
      [(["root"], FsNode.dir), (["root", ".bashrc"], FsNode.file),
       (["root", "lost+found"], FsNode.dir)]).2 ∧
    fsGet [(["root"], FsNode.dir), (["root", ".bashrc"], FsNode.file),
       (["root", "lost+found"], FsNode.dir)] (["root", ".bashrc"]) =
      some FsNode.file ∧
    fsGet ((restore_backup ⟨true, true, []⟩
      [(["root"], FsNode.dir), (["root", ".bashrc"], FsNode.file),
       (["root", "lost+found"], FsNode.dir)]).1.2) (["root", ".bashrc"]) =
      none := by
  refine ⟨by decide, by decide, by decide, by decide⟩

/-- Claim C5 fails as stated: in shared_runtime.run_rdp_devbox_shared
the credential bootstrap (inject_ssh_key, step index 1) runs before the
overlay setup (setup_persistence, step index 2), and in
devbox.run_rdp_devbox_shared credential bootstrap is the very first
step and there is no restore step at all — so credential bootstrap does
run before overlay setup, contradicting the claimed strict total order
for every container flavor. -/
theorem claim_C5_counterexample :
    StartupStep.credentialBootstrap ∈ sharedRuntime_run_rdp_devbox_shared_steps ∧
    StartupStep.overlaySetup ∈ sharedRuntime_run_rdp_devbox_shared_steps ∧
    stepIndex sharedRuntime_run_rdp_devbox_shared_steps
        StartupStep.credentialBootstrap <
      stepIndex sharedRuntime_run_rdp_devbox_shared_steps
        StartupStep.overlaySetup ∧
    stepIndex devbox_run_rdp_devbox_shared_steps
        StartupStep.credentialBootstrap <
      stepIndex devbox_run_rdp_devbox_shared_steps StartupStep.overlaySetup ∧
    StartupStep.restoreBackup ∉ devbox_run_rdp_devbox_shared_steps := by
  refine ⟨by decide, by decide, by decide, by decide, by decide⟩

/-- Claim C5 (amended): the consolidated SSH startups
(shared_runtime.run_devbox_shared, devbox.run_devbox_shared) do execute
restore, overlay setup, credential bootstrap, package installation,
service start and the idle loop in the claimed strict order; but in the
RDP startups credential bootstrap runs before overlay setup —
immediately after restore in shared_runtime.run_rdp_devbox_shared, and
as the first step with no restore step at all in
devbox.run_rdp_devbox_shared. -/
theorem claim_C5_step_order :
    (stepIndex sharedRuntime_run_devbox_shared_steps StartupStep.restoreBackup <
       stepIndex sharedRuntime_run_devbox_shared_steps StartupStep.overlaySetup ∧
     stepIndex sharedRuntime_run_devbox_shared_steps StartupStep.overlaySetup <
       stepIndex sharedRuntime_run_devbox_shared_steps
         StartupStep.credentialBootstrap ∧
     stepIndex sharedRuntime_run_devbox_shared_steps
         StartupStep.credentialBootstrap <
       stepIndex sharedRuntime_run_devbox_shared_steps
         StartupStep.installPackages ∧
     stepIndex sharedRuntime_run_devbox_shared_steps StartupStep.installPackages <
       stepIndex sharedRuntime_run_devbox_shared_steps StartupStep.startService ∧
     stepIndex sharedRuntime_run_devbox_shared_steps StartupStep.startService <
       stepIndex sharedRuntime_run_devbox_shared_steps StartupStep.idleLoop) ∧
    (stepIndex devbox_run_devbox_shared_steps StartupStep.restoreBackup <
       stepIndex devbox_run_devbox_shared_steps StartupStep.overlaySetup ∧
     stepIndex devbox_run_devbox_shared_steps StartupStep.overlaySetup <
       stepIndex devbox_run_devbox_shared_steps StartupStep.credentialBootstrap ∧
     stepIndex devbox_run_devbox_shared_steps StartupStep.credentialBootstrap <
       stepIndex devbox_run_devbox_shared_steps StartupStep.installPackages ∧
     stepIndex devbox_run_devbox_shared_steps StartupStep.installPackages <
       stepIndex devbox_run_devbox_shared_steps StartupStep.startService ∧
     stepIndex devbox_run_devbox_shared_steps StartupStep.startService <
       stepIndex devbox_run_devbox_shared_steps StartupStep.idleLoop) ∧
    (stepIndex sharedRuntime_run_rdp_devbox_shared_steps
         StartupStep.restoreBackup <
       stepIndex sharedRuntime_run_rdp_devbox_shared_steps
         StartupStep.credentialBootstrap ∧
     stepIndex sharedRuntime_run_rdp_devbox_shared_steps
         StartupStep.credentialBootstrap <
       stepIndex sharedRuntime_run_rdp_devbox_shared_steps
         StartupStep.overlaySetup ∧
     stepIndex sharedRuntime_run_rdp_devbox_shared_steps
         StartupStep.overlaySetup <
       stepIndex sharedRuntime_run_rdp_devbox_shared_steps
         StartupStep.installPackages ∧
     stepIndex sharedRuntime_run_rdp_devbox_shared_steps
         StartupStep.installPackages <
       stepIndex sharedRuntime_run_rdp_devbox_shared_steps
         StartupStep.startService ∧
     stepIndex sharedRuntime_run_rdp_devbox_shared_steps
         StartupStep.startService <
       stepIndex sharedRuntime_run_rdp_devbox_shared_steps
         StartupStep.idleLoop) ∧
    (StartupStep.restoreBackup ∉ devbox_run_rdp_devbox_shared_steps ∧
     stepIndex devbox_run_rdp_devbox_shared_steps
         StartupStep.credentialBootstrap <
       stepIndex devbox_run_rdp_devbox_shared_steps StartupStep.overlaySetup ∧
     stepIndex devbox_run_rdp_devbox_shared_steps StartupStep.overlaySetup <
       stepIndex devbox_run_rdp_devbox_shared_steps StartupStep.installPackages ∧
     stepIndex devbox_run_rdp_devbox_shared_steps StartupStep.installPackages <
       stepIndex devbox_run_rdp_devbox_shared_steps StartupStep.startService ∧
     stepIndex devbox_run_rdp_devbox_shared_steps StartupStep.startService <
       stepIndex devbox_run_rdp_devbox_shared_steps StartupStep.idleLoop) := by
  refine ⟨⟨by decide, by decide, by decide, by decide, by decide⟩,
    ⟨by decide, by decide, by decide, by decide, by decide⟩,
    ⟨by decide, by decide, by decide, by decide, by decide⟩,
    ⟨by decide, by decide, by decide, by decide, by decide⟩⟩

/-- On an all-idle probe trace the SSH idle loop exits after exactly n
ticks, where n is the first tick count whose accumulated idle time
reaches the timeout. -/
theorem sshIdleLoop_aux (t i : Nat) :
    ∀ (n j N : Nat), t ≤ (j + n) * i → (∀ m, m < n → (j + m) * i < t) →
    n ≤ N →
    sshIdleLoop t i (j * i) (List.replicate N false) = some n := by
  intro n
  induction n with
  | zero =>
    intro j N ht _ _
    have ht' : t ≤ j * i := by simpa using ht
    cases N with
    | zero => simp [sshIdleLoop, List.replicate, if_pos ht']
    | succ N' => simp [sshIdleLoop, List.replicate, if_pos ht']
  | succ n ih =>
    intro j N ht hfirst hN
    have hlt : j * i < t := by simpa using hfirst 0 (Nat.succ_pos n)
    cases N with
    | zero => omega
    | succ N' =>
      rw [List.replicate_succ]
      simp only [sshIdleLoop]
      rw [if_neg (not_le.mpr hlt)]
      have hstep : idleStep i false (j * i) = (j + 1) * i := by
        simp [idleStep]; ring
      rw [hstep]
      have ht2 : t ≤ ((j + 1) + n) * i := by
        have : (j + 1) + n = j + (n + 1) := by omega
        rw [this]; exact ht
      have hfirst2 : ∀ m, m < n → ((j + 1) + m) * i < t := by
        intro m hm
        have : (j + 1) + m = j + (m + 1) := by omega
        rw [this]; exact hfirst (m + 1) (by omega)
      rw [ih (j + 1) N' ht2 hfirst2 (by omega)]
      rfl

/-- Claim C7: on every tick with no session detected the idle counter
advances by exactly the check interval; on an all-idle trace the loop
exits after exactly n ticks where n is the first tick at which
n * interval reaches or exceeds the timeout, and never earlier; with
the configured timeout 300 and interval 15 the loop exits after exactly
20 consecutive idle ticks and after no shorter idle run. -/
theorem claim_C7_idle_monitor (t i n N : Nat)
    (ht : t ≤ n * i) (hfirst : ∀ m, m < n → m * i < t) (hN : n ≤ N) :
    (∀ idle, idleStep i false idle = idle + i) ∧
    sshIdleLoop t i 0 (List.replicate N false) = some n ∧
    sshIdleLoop IDLE_TIMEOUT_SECONDS 15 0 (List.replicate 20 false) =
      some 20 ∧
    (∀ M, M < 20 →
      sshIdleLoop IDLE_TIMEOUT_SECONDS 15 0 (List.replicate M false) = none) := by
  refine ⟨fun idle => by simp [idleStep], ?_, by decide, by decide⟩
  have h := sshIdleLoop_aux t i n 0 N (by simpa using ht)
    (fun m hm => by simpa using hfirst m hm) hN
  simpa using h

/-- Claim C7 witness: the idle-monitor exit behavior instantiated at
timeout 300, interval 15, showing exit at tick 20 and not at tick 19. -/
theorem claim_C7_witness :
    sshIdleLoop 300 15 0 (List.replicate 20 false) = some 20 ∧
    sshIdleLoop 300 15 0 (List.replicate 19 false) = none ∧
    idleStep 15 false 0 = 15 := by
  have h := claim_C7_idle_monitor 300 15 20 20 (by decide)
    (fun m hm => by omega) (by decide)
  exact ⟨h.2.1, h.2.2.2 19 (by decide), h.1 0⟩

/-- int() on a string can only raise ValueError. -/
theorem pyIntParse_only_valueError (s : List Char) (e : PyErr)
    (h : pyIntParse s = Except.error e) : e = PyErr.valueError := by
  unfold pyIntParse at h
  cases hc : pyIntCore s with
  | some v => rw [hc] at h; cases h
  | none => rw [hc] at h; cases h; rfl

/-- Every RDP idle-monitor tick returns normally: the only exception
the try-block can raise is the ValueError of int(), which the except
clause catches. -/
theorem rdpTick_total (idle i : Nat) (s : List Char) :
    ∃ v, rdpTick idle i s = Except.ok v := by
  cases hp : pyIntParse (pyStrip s) with
  | ok k =>
    exact ⟨if 0 < k then 0 else idle + i, by simp [rdpTick, rdpTickTry, hp]⟩
  | error e =>
    have he := pyIntParse_only_valueError _ e hp
    subst he
    exact ⟨idle + i, by simp [rdpTick, rdpTickTry, hp]⟩

/-- No exception ever propagates out of the RDP idle-monitor loop, for
any probe-output trace. -/
theorem rdpIdleLoop_total (t i : Nat) :
    ∀ (trace : List (List Char)) (idle : Nat),
    ∃ r, rdpIdleLoop t i idle trace = Except.ok r := by
  intro trace
  induction trace with
  | nil =>
    intro idle
    by_cases h : t ≤ idle
    · exact ⟨some 0, by simp [rdpIdleLoop, h]⟩
    · exact ⟨none, by simp [rdpIdleLoop, h]⟩
  | cons s rest ih =>
    intro idle
    by_cases h : t ≤ idle
    · exact ⟨some 0, by simp [rdpIdleLoop, h]⟩
    · obtain ⟨v, hv⟩ := rdpTick_total idle i s
      obtain ⟨r, hr⟩ := ih v
      exact ⟨Option.map (· + 1) r, by simp [rdpIdleLoop, h, hv, hr, Except.map]⟩

/-- Claim C8: when the probe output of a tick cannot be interpreted as
an integer session count (int() raises ValueError, e.g. on the empty
output of a failed probe command), that tick advances the idle counter
by exactly the check interval and the loop continues with the rest of
the trace; and no exception ever propagates out of the loop. -/
theorem claim_C8_probe_failure (t i idle : Nat) (s : List Char)
    (rest : List (List Char)) (trace : List (List Char)) (idle0 : Nat)
    (hbad : pyIntParse (pyStrip s) = Except.error PyErr.valueError)
    (hlt : idle < t) :
    rdpTick idle i s = Except.ok (idle + i) ∧
    rdpIdleLoop t i idle (s :: rest) =
      (rdpIdleLoop t i (idle + i) rest).map (Option.map (· + 1)) ∧
    (∃ r, rdpIdleLoop t i idle0 trace = Except.ok r) := by
  have htick : rdpTick idle i s = Except.ok (idle + i) := by
    simp [rdpTick, rdpTickTry, hbad]
  refine ⟨htick, ?_, rdpIdleLoop_total t i trace idle0⟩
  simp only [rdpIdleLoop]
  rw [if_neg (not_le.mpr hlt), htick]

/-- Claim C8 witness: the probe-failure behavior at a concrete tick with
empty probe output, interval 15, timeout 300. -/
theorem claim_C8_witness :
    rdpTick 0 15 [] = Except.ok 15 ∧
    rdpIdleLoop 300 15 0 [[]] =
      (rdpIdleLoop 300 15 15 []).map (Option.map (· + 1)) ∧
    (∃ r, rdpIdleLoop 300 15 0 [[]] = Except.ok r) := by
  exact claim_C8_probe_failure 300 15 0 [] [] [[]] 0 rfl (by decide)

/-- Claim C9: with an absent or empty PUBKEY value (anything that
strips to the empty string, the os.environ.get default included),
inject_ssh_key returns False and leaves the credential state untouched
(no authorized_keys content or mode change, no file creation); the
hosting startup sequence calls it as a bare statement and still reaches
the service start and the idle loop. -/
theorem claim_C9_missing_pubkey (env : List Char) (w : CredWorld)
    (h : pyStrip env = []) :
    inject_ssh_key env w = (false, w) ∧
    (inject_ssh_key env w).2.authKeys = w.authKeys ∧
    (inject_ssh_key env w).2.authKeysMode = w.authKeysMode ∧
    StartupStep.startService ∈ sharedRuntime_run_devbox_shared_steps ∧
    stepIndex sharedRuntime_run_devbox_shared_steps
        StartupStep.credentialBootstrap <
      stepIndex sharedRuntime_run_devbox_shared_steps StartupStep.idleLoop := by
  have h1 : inject_ssh_key env w = (false, w) := by
    simp [inject_ssh_key, h]
  exact ⟨h1, by rw [h1], by rw [h1], by decide, by decide⟩

/-- Claim C9 witness: the empty-environment case on a fresh credential
state. -/
theorem claim_C9_witness :
    inject_ssh_key [] ⟨false, none, none, none⟩ =
      (false, ⟨false, none, none, none⟩) := by
  exact (claim_C9_missing_pubkey [] ⟨false, none, none, none⟩ rfl).1

/-- Claim C10: get_persistence_items returns the SSH item list for
every devbox type outside the five known keys; in particular the GPU
desktop flavors, which request profile names rdp_t4, rdp_l4 and
rdp_a10g via launch_rdp_desktop, receive the SSH profile, which
contains none of the five desktop-specific persistence items (though
the rdp profile itself does contain them). -/
theorem claim_C10_profile_fallback (t : String)
    (h : t ∉ ["ssh", "rdp", "gemini", "llm", "unsloth"]) :
    get_persistence_items t = SSH_PERSISTENCE_ITEMS ∧
    get_persistence_items (rdp_persistence_type (some ("t4"))) =
      SSH_PERSISTENCE_ITEMS ∧
    get_persistence_items (rdp_persistence_type (some ("l4"))) =
      SSH_PERSISTENCE_ITEMS ∧
    get_persistence_items (rdp_persistence_type (some ("a10g"))) =
      SSH_PERSISTENCE_ITEMS ∧
    (∀ x ∈ RDP_EXTRA_ITEMS, x ∉ SSH_PERSISTENCE_ITEMS) ∧
    (∀ x ∈ RDP_EXTRA_ITEMS, x ∈ RDP_PERSISTENCE_ITEMS) := by
  have h1 : ¬ (t = "ssh") := fun hh => h (by rw [hh]; decide)
  have h2 : ¬ (t = "rdp") := fun hh => h (by rw [hh]; decide)
  have h3 : ¬ (t = "gemini") := fun hh => h (by rw [hh]; decide)
  have h4 : ¬ (t = "llm") := fun hh => h (by rw [hh]; decide)
  have h5 : ¬ (t = "unsloth") := fun hh => h (by rw [hh]; decide)
  refine ⟨?_, by decide, by decide, by decide, by decide, by decide⟩
  unfold get_persistence_items
  rw [if_neg h1, if_neg h2, if_neg h3, if_neg h4, if_neg h5]

/-- Claim C10 witness: the fallback instantiated at the profile name
rdp_t4. -/
theorem claim_C10_witness :
    get_persistence_items ("rdp_t4") = SSH_PERSISTENCE_ITEMS ∧
    get_persistence_items (rdp_persistence_type (some ("t4"))) =
      SSH_PERSISTENCE_ITEMS := by
  have h := claim_C10_profile_fallback ("rdp_t4") (by decide)
  exact ⟨h.1, h.2.1⟩

/-- The head surviving a dropWhile does not satisfy the predicate. -/
theorem dropWhile_cons_false (q : Char → Bool) :
    ∀ (l : List Char) (c : Char) (t : List Char),
    l.dropWhile q = c :: t → q c = false := by
  intro l
  induction l with
  | nil => intro c t h; cases h
  | cons a rest ih =>
    intro c t h
    rw [List.dropWhile_cons] at h
    by_cases hq : q a = true
    · rw [if_pos hq] at h
      exact ih c t h
    · rw [if_neg hq] at h
      injection h with h1 _
      rw [← h1]
      simpa using hq

/-- A string with no leading and no trailing whitespace is its own
strip. -/
theorem pyStrip_of_clean (env : List Char)
    (hFront : env.dropWhile isPySpace = env)
    (hBack : env.reverse.dropWhile isPySpace = env.reverse) :
    pyStrip env = env := by
  unfold pyStrip
  rw [hFront, hBack, List.reverse_reverse]

/-- A nonempty string with no trailing whitespace does not end in a
newline. -/
theorem getLast_not_newline (env : List Char) (hne : env ≠ [])
    (hBack : env.reverse.dropWhile isPySpace = env.reverse) :
    env.getLast? ≠ some '\n' := by
  have hrne : env.reverse ≠ [] := fun hh => hne (List.reverse_eq_nil_iff.mp hh)
  obtain ⟨c, t, hct⟩ := List.exists_cons_of_ne_nil hrne
  have hdrop : env.reverse.dropWhile isPySpace = c :: t := by rw [hBack, hct]
  have hc : isPySpace c = false := dropWhile_cons_false isPySpace env.reverse c t hdrop
  have hlast : env.getLast? = some c := by
    rw [← List.head?_reverse, hct]; rfl
  rw [hlast]
  intro hh
  injection hh with hh1
  rw [hh1] at hc
  cases hc

/-- A pattern has no occurrence in a text no longer than itself other
than the text being the pattern. -/
theorem countOcc_short (p : List Char) :
    ∀ (s : List Char), s.length ≤ p.length → p ≠ s → countOcc p s = 0 := by
  intro s
  induction s with
  | nil => intro _ _; rfl
  | cons c rest ih =>
    intro hlen hne
    have hnp : ¬ p <+: c :: rest := by
      intro hp
      exact hne (hp.eq_of_length (Nat.le_antisymm hp.length_le hlen))
    simp only [countOcc, if_neg hnp, Nat.zero_add]
    refine ih ?_ ?_
    · exact Nat.le_of_lt (Nat.lt_of_lt_of_le (Nat.lt_succ_self _) hlen)
    · intro hh
      have : rest.length < p.length :=
        Nat.lt_of_lt_of_le (Nat.lt_succ_self _) hlen
      rw [hh] at this
      exact Nat.lt_irrefl _ this

/-- A nonempty key that does not end in a newline occurs exactly once
in the credential line the bootstrap writes (the key followed by a
newline). -/
theorem countOcc_key (env : List Char) (hne : env ≠ [])
    (hlast : env.getLast? ≠ some '\n') :
    countOcc env (env ++ ['\n']) = 1 := by
  obtain ⟨a, q, rfl⟩ := List.exists_cons_of_ne_nil hne
  rw [List.cons_append]
  have hp : (a :: q) <+: a :: (q ++ ['\n']) := by
    rw [← List.cons_append]
    exact List.prefix_append _ _
  simp only [countOcc, if_pos hp]
  have hz : countOcc (a :: q) (q ++ ['\n']) = 0 := by
    refine countOcc_short (a :: q) (q ++ ['\n']) ?_ ?_
    · simp
    · intro hh
      exact hlast (hh ▸ List.getLast?_concat q)
  rw [hz]

/-- Re-reading the credential file and stripping it recovers the key:
stripping key-plus-newline gives back a clean key. -/
theorem pyStrip_append_newline (env : List Char) (hne : env ≠ [])
    (hFront : env.dropWhile isPySpace = env)
    (hBack : env.reverse.dropWhile isPySpace = env.reverse) :
    pyStrip (env ++ ['\n']) = env := by
  obtain ⟨a, q, rfl⟩ := List.exists_cons_of_ne_nil hne
  have ha : isPySpace a = false :=
    dropWhile_cons_false isPySpace (a :: q) a q hFront
  have step1 : ((a :: q) ++ ['\n']).dropWhile isPySpace = (a :: q) ++ ['\n'] := by
    rw [List.cons_append, List.dropWhile_cons, if_neg (by simp [ha])]
  have step2 : ((a :: q) ++ ['\n']).reverse = '\n' :: (a :: q).reverse := by
    rw [List.reverse_append]; rfl
  have step3 : ('\n' :: (a :: q).reverse).dropWhile isPySpace = (a :: q).reverse := by
    rw [List.dropWhile_cons, if_pos (by decide)]
    exact hBack
  unfold pyStrip
  rw [step1, step2, step3, List.reverse_reverse]

/-- Characterization of inject_ssh_key on a nonempty stripped key: it
returns True, ensures the .ssh directory exists with mode 700, appends
key-plus-newline exactly when the key is not a substring of the
stripped existing content, and sets the file mode to 600. -/
theorem inject_run (env : List Char) (w : CredWorld)
    (hne : pyStrip env ≠ []) :
    inject_ssh_key env w =
      (true,
       { sshDirExists := true,
         sshDirMode := some 0o700,
         authKeys :=
           if pyStrip env <:+:
               (match w.authKeys with
                | some c => pyStrip c
                | none => []) then w.authKeys
           else some ((w.authKeys.getD []) ++ pyStrip env ++ ['\n']),
         authKeysMode := some 0o600 }) := by
  obtain ⟨ex, dmode, ak, akm⟩ := w
  simp only [inject_ssh_key]
  rw [if_neg hne]
  cases ex with
  | false =>
    simp only [Bool.false_eq_true, if_false]
    split
    · split <;> simp_all
    · split <;> simp_all
  | true =>
    simp only [if_true]
    split
    · split <;> simp_all
    · split <;> simp_all

/-- Claim C6: running inject_ssh_key twice with the same non-empty
(clean, i.e. whitespace-stripped) public key in the environment,
starting from an absent authorized_keys file, leaves the file
containing the key exactly once — the second run detects the key as a
substring and appends nothing — and after each run the file's
permission mask is exactly 600 (octal). -/
theorem claim_C6_idempotent_key (env : List Char) (w : CredWorld)
    (hne : env ≠ [])
    (hFront : env.dropWhile isPySpace = env)
    (hBack : env.reverse.dropWhile isPySpace = env.reverse)
    (hfile : w.authKeys = none) :
    (inject_ssh_key env w).2.authKeys = some (env ++ ['\n']) ∧
    (inject_ssh_key env ((inject_ssh_key env w).2)).2.authKeys =
      some (env ++ ['\n']) ∧
    countOcc env
      (((inject_ssh_key env ((inject_ssh_key env w).2)).2.authKeys).getD [])
      = 1 ∧
    (inject_ssh_key env w).2.authKeysMode = some 0o600 ∧
    (inject_ssh_key env ((inject_ssh_key env w).2)).2.authKeysMode =
      some 0o600 := by
  have hstrip : pyStrip env = env := pyStrip_of_clean env hFront hBack
  have hne' : pyStrip env ≠ [] := by rw [hstrip]; exact hne
  have h1 := inject_run env w hne'
  have hnil : ¬ pyStrip env <:+: ([] : List Char) := by
    rw [hstrip]
    intro hh
    exact hne (by simpa using hh)
  have hk1 : (inject_ssh_key env w).2.authKeys = some (env ++ ['\n']) := by
    rw [h1]
    simp only [hfile]
    rw [if_neg hnil]
    simp only [Option.getD_none, List.nil_append, hstrip]
  have h2 := inject_run env ((inject_ssh_key env w).2) hne'
  have hex : (match (inject_ssh_key env w).2.authKeys with
      | some c => pyStrip c
      | none => ([] : List Char)) = env := by
    rw [hk1]
    exact pyStrip_append_newline env hne hFront hBack
  have hk2 : (inject_ssh_key env ((inject_ssh_key env w).2)).2.authKeys =
      some (env ++ ['\n']) := by
    rw [h2]
    simp only [hex]
    rw [if_pos (by rw [hstrip])]
    exact hk1
  refine ⟨hk1, hk2, ?_, by rw [h1], by rw [h2]⟩
  rw [hk2]
  exact countOcc_key env hne (getLast_not_newline env hne hBack)

/-- Claim C6 witness: the double-bootstrap behavior at the concrete
two-character key on a fresh credential state. -/
theorem claim_C6_witness :
    (inject_ssh_key ['k', '1'] ⟨false, none, none, none⟩).2.authKeys =
      some (['k', '1'] ++ ['\n']) ∧
    (inject_ssh_key ['k', '1']
        ((inject_ssh_key ['k', '1'] ⟨false, none, none, none⟩).2)).2.authKeys =
      some (['k', '1'] ++ ['\n']) ∧
    countOcc ['k', '1']
      (((inject_ssh_key ['k', '1']
        ((inject_ssh_key ['k', '1']
          ⟨false, none, none, none⟩).2)).2.authKeys).getD []) = 1 ∧
    (inject_ssh_key ['k', '1'] ⟨false, none, none, none⟩).2.authKeysMode =
      some 0o600 ∧
    (inject_ssh_key ['k', '1']
        ((inject_ssh_key ['k', '1']
          ⟨false, none, none, none⟩).2)).2.authKeysMode = some 0o600 := by
  exact claim_C6_idempotent_key ['k', '1'] ⟨false, none, none, none⟩
    (by decide) (by decide) (by decide) rfl
